import Mathlib

/-!
# Verification of the BigData traffic dashboard's aggregation and loading layer

Shallow embedding of `src/dashboard.py`.  The dashboard loads three CSV files
(`final_merged_dataset.csv`, `simulation_results.csv`,
`factor_analysis_loadings.csv`) and computes descriptive statistics over them:
means of columns, a threshold probability over simulated congestion risks,
risk-category bucketing via `pd.cut`, an empirical CDF via sorting, and
per-factor mean absolute loadings.

Numeric columns are modelled as lists of rationals.  Pandas series means are
partial: `Series.mean()` of an empty series is NaN, modelled here as `none`.
-/

namespace Dashboard

/-- One row of `final_merged_dataset.csv` (`TrafficWeatherRecord`):
the fields of the fixed column set the dashboard reads. -/
structure TrafficWeatherRecord where
  rain_mm : ℚ
  avg_speed_kmh : ℚ
  congestion_level : String
  weather_condition : String
  accident_count : ℕ
  vehicle_count : ℕ
deriving DecidableEq

/-- `pandas.Series.mean()`: arithmetic mean of the values; NaN (here `none`)
when the series is empty, since pandas computes 0/0. -/
def seriesMean (xs : List ℚ) : Option ℚ :=
  if xs.isEmpty then none else some (xs.sum / xs.length)

/-- `df_merged['avg_speed_kmh'].mean()` — dashboard.py line 68. -/
def avgTrafficSpeed (records : List TrafficWeatherRecord) : Option ℚ :=
  seriesMean (records.map TrafficWeatherRecord.avg_speed_kmh)

/-- `df_merged['rain_mm'].mean()` — dashboard.py line 69. -/
def avgRainfall (records : List TrafficWeatherRecord) : Option ℚ :=
  seriesMean (records.map TrafficWeatherRecord.rain_mm)

/-- `(df_sim["congestion_risk"] > t).mean() * 100` — dashboard.py line 122
(there with `t = 0.7`).  The comparison yields a boolean series whose mean
is taken, so an empty table gives NaN (`none`). -/
def thresholdProb (risks : List ℚ) (t : ℚ) : Option ℚ :=
  (seriesMean (risks.map (fun x => if t < x then (1 : ℚ) else 0))).map (fun m => m * 100)

/-- `high_risk_prob` — dashboard.py line 122, threshold fixed at 0.7. -/
def high_risk_prob (risks : List ℚ) : Option ℚ :=
  thresholdProb risks (7/10)

/-- `avg_risk = df_sim["congestion_risk"].mean()` — dashboard.py line 123. -/
def avg_risk (risks : List ℚ) : Option ℚ :=
  seriesMean risks

/-- The three `pd.cut` labels of dashboard.py line 157. -/
inductive RiskCategory where
  | Low
  | Medium
  | High
deriving DecidableEq, Repr

/-- `pd.cut(x, bins=[0, 0.4, 0.7, 1], labels=["Low", "Medium", "High"])` —
dashboard.py lines 154–158.  Pandas defaults apply: `right=True` and
`include_lowest=False`, so the intervals are `(0, 0.4]`, `(0.4, 0.7]`,
`(0.7, 1]`; a value outside all three (in particular exactly 0) gets NaN. -/
def riskCategory (x : ℚ) : Option RiskCategory :=
  if 0 < x ∧ x ≤ 2/5 then some .Low
  else if 2/5 < x ∧ x ≤ 7/10 then some .Medium
  else if 7/10 < x ∧ x ≤ 1 then some .High
  else none

/-- `df_sim["risk_category"].value_counts()` restricted to one label —
the number of rows bucketed into category `c` (dashboard.py line 161). -/
def bucketCount (risks : List ℚ) (c : RiskCategory) : ℕ :=
  risks.countP (fun x => decide (riskCategory x = some c))

/-- `df_sim["congestion_risk"].sort_values()` — dashboard.py line 169. -/
def sortedRisk (risks : List ℚ) : List ℚ :=
  List.insertionSort (· ≤ ·) risks

/-- The y-values `sorted_risk.index / len(sorted_risk)` of the CDF trace —
dashboard.py line 173: rank divided by total count. -/
def cdfY (risks : List ℚ) : List ℚ :=
  (List.range risks.length).map (fun (i : ℕ) => (i : ℚ) / (risks.length : ℚ))

/-- The (x, y) points handed to the CDF scatter trace —
dashboard.py lines 171–175. -/
def cdfPoints (risks : List ℚ) : List (ℚ × ℚ) :=
  (sortedRisk risks).zip (cdfY risks)

/-- `factor_analysis_loadings.csv` as read with `index_col=0`: for each named
latent factor (column), its loadings across all variables (rows). -/
abbrev FactorMatrix := List (String × List ℚ)

/-- One column of `df_factors.abs().mean()`: the mean of the absolute loading
values of a single factor across all variables. -/
def columnStrength (col : List ℚ) : Option ℚ :=
  seriesMean (col.map (fun x => |x|))

/-- `factor_strength = df_factors.abs().mean()` — dashboard.py line 202:
per-factor mean of absolute loadings. -/
def factor_strength (m : FactorMatrix) : List (String × Option ℚ) :=
  m.map (fun c => (c.1, columnStrength c.2))

/-! ## The dataset loader and session (dashboard.py lines 22–61, 115, 186) -/

/-- The exceptions `pd.read_csv` can raise on a bad file: `FileNotFoundError`
when the file is absent, or a parse exception (e.g. `pandas.errors.ParserError`)
when it exists but cannot be parsed.  Each carries the file's identity. -/
inductive PdError where
  | fileNotFound (filename : String)
  | parserError (filename : String)
deriving DecidableEq, Repr

/-- The state of one expected CSV file in the data directory: absent,
present but unparsable, or present with parsed contents of type `α`. -/
inductive FileStatus (α : Type) where
  | missing
  | unparsable
  | present (table : α)
deriving DecidableEq

/-- The data directory next to the script, holding the states of the three
expected input files. -/
structure Directory where
  final_merged_dataset : FileStatus (List TrafficWeatherRecord)
  simulation_results : FileStatus (List ℚ)
  factor_analysis_loadings : FileStatus FactorMatrix
deriving DecidableEq

/-- `pd.read_csv` on one file: returns the parsed table, raises
`FileNotFoundError` if the file is missing, and a parse exception if it is
unparsable. -/
def read_csv {α : Type} (filename : String) (fs : FileStatus α) :
    Except PdError α :=
  match fs with
  | .present t => .ok t
  | .missing => .error (.fileNotFound filename)
  | .unparsable => .error (.parserError filename)

/-- What `load_data` returns to the dashboard: the three optional tables and
the message passed to `st.error`, if any (dashboard.py lines 33 and 36–37). -/
structure LoadResult where
  df_merged : Option (List TrafficWeatherRecord)
  df_sim : Option (List ℚ)
  df_factors : Option FactorMatrix
  errorDisplayed : Option String
deriving DecidableEq

/-- `load_data()` — dashboard.py lines 23–37.  The `try` block reads the three
files in order; `except FileNotFoundError` shows `st.error` naming the file
and returns `(None, None, None)`.  Any other exception (an unparsable file)
is not caught and propagates out of the function (`Except.error`). -/
def load_data (d : Directory) : Except PdError LoadResult :=
  let handle : PdError → Except PdError LoadResult := fun e =>
    match e with
    | .fileNotFound f => .ok ⟨none, none, none, some ("File not found: " ++ f)⟩
    | e => .error e
  match read_csv "final_merged_dataset.csv" d.final_merged_dataset with
  | .error e => handle e
  | .ok m =>
    match read_csv "simulation_results.csv" d.simulation_results with
    | .error e => handle e
    | .ok s =>
      match read_csv "factor_analysis_loadings.csv" d.factor_analysis_loadings with
      | .error e => handle e
      | .ok f => .ok ⟨some m, some s, some f, none⟩

/-- The three navigation panes of the dashboard. -/
inductive Pane where
  | dataOverview
  | monteCarlo
  | factorAnalysis
deriving DecidableEq, Repr

/-- The sidebar radio labels — dashboard.py lines 49–56. -/
def menuOptions : List String :=
  ["📊 Data Overview", "🎲 Monte Carlo Simulation", "📐 Factor Analysis"]

/-- The `if options == ... / elif options == ...` pane dispatch —
dashboard.py lines 61, 115 and 186.  A selection matching no comparison
string falls through every branch and renders nothing (`none`). -/
def dispatch (options : String) : Option Pane :=
  if options = "📊 Data Overview" then some .dataOverview
  else if options = "🎲 Monte Carlo Simulation" then some .monteCarlo
  else if options = "📐 Factor Analysis" then some .factorAnalysis
  else none

/-- How a dashboard session ends: halted by `st.stop()` after a load error
message, crashed on an exception escaping `load_data`, or reaching the pane
dispatch (rendering the matching pane, or none on a label mismatch). -/
inductive SessionResult where
  | halted (errorMsg : Option String)
  | crashed (e : PdError)
  | rendered (pane : Option Pane)
deriving DecidableEq, Repr

/-- The top-level script flow — dashboard.py lines 40–61: call `load_data`;
if `df_merged is None` then `st.stop()` halts before any pane; otherwise
dispatch on the selected sidebar option. -/
def runSession (d : Directory) (selected : String) : SessionResult :=
  match load_data d with
  | .error e => .crashed e
  | .ok r =>
    match r.df_merged with
    | none => .halted r.errorDisplayed
    | some _ => .rendered (dispatch selected)

/-- `f` names a file that is missing in directory `d`. -/
def missingIn (d : Directory) (f : String) : Prop :=
  (f = "final_merged_dataset.csv" ∧ d.final_merged_dataset = .missing)
  ∨ (f = "simulation_results.csv" ∧ d.simulation_results = .missing)
  ∨ (f = "factor_analysis_loadings.csv" ∧ d.factor_analysis_loadings = .missing)

/-- No file of the directory is present-but-unparsable: each is either
present or missing.  (Unparsable files are the uncaught-exception path.) -/
def noUnparsable (d : Directory) : Prop :=
  d.final_merged_dataset ≠ .unparsable
  ∧ d.simulation_results ≠ .unparsable
  ∧ d.factor_analysis_loadings ≠ .unparsable

/-- Some expected file is missing from the directory. -/
def someMissing (d : Directory) : Prop :=
  d.final_merged_dataset = .missing
  ∨ d.simulation_results = .missing
  ∨ d.factor_analysis_loadings = .missing

/-- The first missing file in the order `load_data` reads them — the one
whose `FileNotFoundError` the `try` block raises first. -/
def firstMissing (d : Directory) : Option String :=
  match d.final_merged_dataset with
  | .missing => some "final_merged_dataset.csv"
  | _ =>
    match d.simulation_results with
    | .missing => some "simulation_results.csv"
    | _ =>
      match d.factor_analysis_loadings with
      | .missing => some "factor_analysis_loadings.csv"
      | _ => none

end Dashboard

namespace Dashboard

/-! ## Basic evaluation lemmas -/

theorem seriesMean_nil : seriesMean [] = none := rfl

theorem seriesMean_of_ne_nil {xs : List ℚ} (h : xs ≠ []) :
    seriesMean xs = some (xs.sum / xs.length) := by
  simp [seriesMean, List.isEmpty_iff, h]

/-- The sum of the 0/1 indicator series produced by `series > t` equals the
number of elements strictly greater than `t`. -/
theorem indicator_sum (risks : List ℚ) (t : ℚ) :
    (risks.map (fun x => if t < x then (1 : ℚ) else 0)).sum
      = ((risks.filter (fun x => decide (t < x))).length : ℚ) := by
  induction risks with
  | nil => simp
  | cons a l ih =>
    by_cases h : t < a <;> simp [h, ih, add_comm]

theorem thresholdProb_of_ne_nil {risks : List ℚ} (h : risks ≠ []) (t : ℚ) :
    thresholdProb risks t
      = some ((((risks.filter (fun x => decide (t < x))).length : ℚ)
          / (risks.length : ℚ)) * 100) := by
  have hne : risks.map (fun x => if t < x then (1 : ℚ) else 0) ≠ [] := by
    simpa using h
  simp [thresholdProb, seriesMean_of_ne_nil hne, indicator_sum]

/-- A congestion risk strictly between 0 and 1 (inclusive) falls in one of the
three `pd.cut` intervals, so its category is defined. -/
theorem riskCategory_isSome {x : ℚ} (h0 : 0 < x) (h1 : x ≤ 1) :
    (riskCategory x).isSome := by
  unfold riskCategory
  split_ifs with hL hM hH
  · rfl
  · rfl
  · rfl
  · push_neg at hL hM hH
    linarith [hH (hM (hL h0))]

/-- Rows whose category is defined are counted by exactly one bucket, so the
three bucket counts sum to the row count. -/
theorem bucketCount_sum {risks : List ℚ}
    (h : ∀ r ∈ risks, (riskCategory r).isSome) :
    bucketCount risks .Low + bucketCount risks .Medium + bucketCount risks .High
      = risks.length := by
  induction risks with
  | nil => rfl
  | cons a l ih =>
    have ha : (riskCategory a).isSome := h a (List.mem_cons_self a l)
    have hl := ih (fun r hr => h r (List.mem_cons_of_mem a hr))
    obtain ⟨c, hc⟩ := Option.isSome_iff_exists.mp ha
    simp only [bucketCount, List.countP_cons] at hl ⊢
    cases c <;> simp [hc] <;> omega

/-- C1 (counterexample): `pd.cut` with default `include_lowest=False` leaves a
row with `congestion_risk` exactly 0 out of every bucket: it is not labeled
Low, and for the one-row table `[0]` the bucket counts sum to 0, not to the
row count 1. -/
theorem risk_zero_unbucketed :
    riskCategory 0 ≠ some RiskCategory.Low
    ∧ bucketCount [0] RiskCategory.Low + bucketCount [0] RiskCategory.Medium
        + bucketCount [0] RiskCategory.High ≠ ([(0 : ℚ)]).length := by
  constructor
  · intro hc
    norm_num [riskCategory] at hc
    exact Option.noConfusion hc
  · have h : bucketCount [0] RiskCategory.Low + bucketCount [0] RiskCategory.Medium
        + bucketCount [0] RiskCategory.High = 0 := by
      norm_num [bucketCount, List.countP_cons, List.countP_nil, riskCategory]
      simp
    simp [h]

/-- C1 (amended): risk bucketing assigns every row with `congestion_risk` in
`(0,1]` to exactly one of Low/Medium/High according to the intervals
`(0,0.4]`, `(0.4,0.7]`, `(0.7,1]` (all open on the left, closed on the
right), the bucket counts sum to the number of such rows, a row with risk
exactly 0 gets no label, and the §4.2 boundary examples hold
(0.1→Low, 0.3→Low, 0.5→Medium, 0.75→High, 0.9→High ⇒ Low:2, Medium:1,
High:2). -/
theorem risk_bucketing_partition (risks : List ℚ)
    (h : ∀ r ∈ risks, 0 < r ∧ r ≤ 1) :
    (∀ r ∈ risks, ∃! c, riskCategory r = some c)
    ∧ bucketCount risks .Low + bucketCount risks .Medium + bucketCount risks .High
        = risks.length
    ∧ riskCategory 0 = none
    ∧ riskCategory (1/10) = some RiskCategory.Low
    ∧ riskCategory (3/10) = some RiskCategory.Low
    ∧ riskCategory (1/2) = some RiskCategory.Medium
    ∧ riskCategory (3/4) = some RiskCategory.High
    ∧ riskCategory (9/10) = some RiskCategory.High
    ∧ bucketCount [1/10, 1/2, 3/4, 9/10, 3/10] RiskCategory.Low = 2
    ∧ bucketCount [1/10, 1/2, 3/4, 9/10, 3/10] RiskCategory.Medium = 1
    ∧ bucketCount [1/10, 1/2, 3/4, 9/10, 3/10] RiskCategory.High = 2 := by
  refine ⟨?_, ?_, by norm_num [riskCategory], by norm_num [riskCategory],
    by norm_num [riskCategory], by norm_num [riskCategory],
    by norm_num [riskCategory], by norm_num [riskCategory], ?_, ?_, ?_⟩
  · intro r hr
    obtain ⟨h0, h1⟩ := h r hr
    obtain ⟨c, hc⟩ := Option.isSome_iff_exists.mp (riskCategory_isSome h0 h1)
    refine ⟨c, hc, fun y hy => ?_⟩
    rw [hc] at hy
    exact (Option.some.inj hy).symm
  · exact bucketCount_sum (fun r hr =>
      riskCategory_isSome (h r hr).1 (h r hr).2)
  · norm_num [bucketCount, List.countP_cons, List.countP_nil, riskCategory]
    simp
  · norm_num [bucketCount, List.countP_cons, List.countP_nil, riskCategory]
    simp
  · norm_num [bucketCount, List.countP_cons, List.countP_nil, riskCategory]
    simp

/-- C1 (witness): the bucket counts of the §8 example table sum to its row
count. -/
theorem risk_bucketing_partition_witness :
    bucketCount [1/10, 1/2, 3/4, 9/10, 3/10] RiskCategory.Low
      + bucketCount [1/10, 1/2, 3/4, 9/10, 3/10] RiskCategory.Medium
      + bucketCount [1/10, 1/2, 3/4, 9/10, 3/10] RiskCategory.High
      = ([(1 : ℚ)/10, 1/2, 3/4, 9/10, 3/10]).length :=
  (risk_bucketing_partition [1/10, 1/2, 3/4, 9/10, 3/10]
    (by intro r hr; simp [List.mem_cons] at hr
        rcases hr with h | h | h | h | h <;> rw [h] <;> norm_num)).2.1

/-- C2: the threshold probability is the fraction of rows with
`congestion_risk` strictly greater than 0.7, as a percentage; on
`[0.1, 0.5, 0.75, 0.9, 0.3]` it is 40%. -/
theorem threshold_prob_strict_gt :
    (∀ risks : List ℚ, risks ≠ [] →
      high_risk_prob risks
        = some ((((risks.filter (fun x => decide ((7 : ℚ)/10 < x))).length : ℚ)
            / (risks.length : ℚ)) * 100))
    ∧ high_risk_prob [1/10, 1/2, 3/4, 9/10, 3/10] = some 40 := by
  constructor
  · intro risks h
    simpa [high_risk_prob] using thresholdProb_of_ne_nil h (7/10)
  · norm_num [high_risk_prob, thresholdProb, seriesMean]

/-- C2 (witness): the general fraction formula evaluated on the §8 example
table. -/
theorem threshold_prob_strict_gt_witness :
    high_risk_prob [1/10, 1/2, 3/4, 9/10, 3/10]
      = some (((([(1 : ℚ)/10, 1/2, 3/4, 9/10, 3/10].filter
            (fun x => decide ((7 : ℚ)/10 < x))).length : ℚ)
          / (([(1 : ℚ)/10, 1/2, 3/4, 9/10, 3/10] : List ℚ).length : ℚ)) * 100) :=
  threshold_prob_strict_gt.1 [1/10, 1/2, 3/4, 9/10, 3/10] (by simp)

/-- C9 (counterexample): in `src/dashboard.py` every sidebar radio label is
byte-identical to the string the pane dispatch compares it against, so the
number of menu options that fall through every dispatch branch is 0, not 1:
there is no option with a label mismatch. -/
theorem sidebar_mismatch_count :
    ¬ (menuOptions.countP (fun o => (dispatch o).isNone) = 1) := by decide

/-- C9 (amended): each of the three sidebar labels matches its dispatch
comparison string exactly and selects the corresponding pane; no menu option
is a silent no-op. -/
theorem sidebar_all_options_dispatch :
    dispatch "📊 Data Overview" = some Pane.dataOverview
    ∧ dispatch "🎲 Monte Carlo Simulation" = some Pane.monteCarlo
    ∧ dispatch "📐 Factor Analysis" = some Pane.factorAnalysis
    ∧ menuOptions.countP (fun o => (dispatch o).isNone) = 0 := by decide

/-- C10: on an empty table the mean-based aggregations are unguarded and
return pandas' NaN (modelled as `none`): the mean traffic speed, mean
rainfall, mean risk and the threshold probability are all `none` on the empty
table, and in particular the threshold probability is not 0%. -/
theorem empty_table_aggregations :
    avgTrafficSpeed [] = none
    ∧ avgRainfall [] = none
    ∧ avg_risk [] = none
    ∧ high_risk_prob [] = none
    ∧ high_risk_prob [] ≠ some 0 := by
  refine ⟨rfl, rfl, rfl, rfl, by simp [high_risk_prob, thresholdProb, seriesMean]⟩

/-- C6: for any fixed non-empty simulation table the threshold probability is
non-increasing in the threshold, 0% for a threshold at least every risk value
(i.e. at least the maximum), and 100% for a threshold strictly below every
risk value (i.e. strictly below the minimum). -/
theorem threshold_prob_monotone (risks : List ℚ) (h : risks ≠ []) :
    (∀ t₁ t₂ p₁ p₂, t₁ ≤ t₂ →
        thresholdProb risks t₁ = some p₁ → thresholdProb risks t₂ = some p₂ →
        p₂ ≤ p₁)
    ∧ (∀ t, (∀ x ∈ risks, x ≤ t) → thresholdProb risks t = some 0)
    ∧ (∀ t, (∀ x ∈ risks, t < x) → thresholdProb risks t = some 100) := by
  have hn : (0 : ℚ) < (risks.length : ℚ) := by
    exact_mod_cast List.length_pos.mpr h
  refine ⟨?_, ?_, ?_⟩
  · intro t₁ t₂ p₁ p₂ ht h1 h2
    rw [thresholdProb_of_ne_nil h t₁] at h1
    rw [thresholdProb_of_ne_nil h t₂] at h2
    obtain rfl : p₁ = _ := (Option.some.inj h1).symm
    obtain rfl : p₂ = _ := (Option.some.inj h2).symm
    have hsub : (risks.filter (fun x => decide (t₂ < x))).length
        ≤ (risks.filter (fun x => decide (t₁ < x))).length := by
      refine List.Sublist.length_le (List.monotone_filter_right risks ?_)
      intro a ha
      simp only [decide_eq_true_eq] at ha ⊢
      linarith
    have hc : ((risks.filter (fun x => decide (t₂ < x))).length : ℚ)
        ≤ ((risks.filter (fun x => decide (t₁ < x))).length : ℚ) := by
      exact_mod_cast hsub
    gcongr
  · intro t ht
    rw [thresholdProb_of_ne_nil h t]
    have hfil : risks.filter (fun x => decide (t < x)) = [] := by
      rw [List.filter_eq_nil_iff]
      intro a ha
      simpa using not_lt.mpr (ht a ha)
    simp [hfil]
  · intro t ht
    rw [thresholdProb_of_ne_nil h t]
    have hfil : risks.filter (fun x => decide (t < x)) = risks := by
      rw [List.filter_eq_self]
      intro a ha
      simpa using ht a ha
    rw [hfil, div_self (ne_of_gt hn)]
    norm_num

/-- C6 (witness): on the §8 example table, 40% (at threshold 0.7) is at most
60% (at threshold 0.4), a threshold of 1 (the maximum) gives 0%, and a
threshold of 0 (below the minimum) gives 100%. -/
theorem threshold_prob_monotone_witness :
    ((40 : ℚ) ≤ 60)
    ∧ thresholdProb [1/10, 1/2, 3/4, 9/10, 3/10] 1 = some 0
    ∧ thresholdProb [1/10, 1/2, 3/4, 9/10, 3/10] 0 = some 100 := by
  obtain ⟨h1, h2, h3⟩ :=
    threshold_prob_monotone [1/10, 1/2, 3/4, 9/10, 3/10] (by simp)
  refine ⟨h1 (2/5) (7/10) 60 40 (by norm_num)
      (by norm_num [thresholdProb, seriesMean])
      (by norm_num [thresholdProb, seriesMean]),
    h2 1 ?_, h3 0 ?_⟩
  · intro x hx
    simp only [List.mem_cons, List.not_mem_nil, or_false] at hx
    rcases hx with h | h | h | h | h <;> rw [h] <;> norm_num
  · intro x hx
    simp only [List.mem_cons, List.not_mem_nil, or_false] at hx
    rcases hx with h | h | h | h | h <;> rw [h] <;> norm_num

/-- C5: the empirical CDF sorts the risks ascending (a sorted permutation of
the table), pairs each sorted value with rank/n, and the y-sequence is
non-decreasing, starts at 0 and ends at (n-1)/n. -/
theorem empirical_cdf (risks : List ℚ) (h : risks ≠ []) :
    (sortedRisk risks).Perm risks
    ∧ List.Sorted (· ≤ ·) (sortedRisk risks)
    ∧ (cdfPoints risks).map Prod.fst = sortedRisk risks
    ∧ (cdfPoints risks).map Prod.snd = cdfY risks
    ∧ List.Sorted (· ≤ ·) (cdfY risks)
    ∧ (cdfY risks).head? = some 0
    ∧ (cdfY risks).getLast?
        = some (((risks.length : ℚ) - 1) / (risks.length : ℚ)) := by
  have hperm : (sortedRisk risks).Perm risks := List.perm_insertionSort _ risks
  have hslen : (sortedRisk risks).length = risks.length := hperm.length_eq
  have hylen : (cdfY risks).length = risks.length := by simp [cdfY]
  obtain ⟨m, hm⟩ : ∃ m, risks.length = m + 1 := by
    have := List.length_pos.mpr h
    exact ⟨risks.length - 1, by omega⟩
  refine ⟨hperm, List.sorted_insertionSort _ risks, ?_, ?_, ?_, ?_, ?_⟩
  · exact List.map_fst_zip _ _ (by rw [hslen, hylen])
  · exact List.map_snd_zip _ _ (by rw [hslen, hylen])
  · refine List.Pairwise.map _ (fun a b hab => ?_) (List.pairwise_lt_range _)
    have hcast : (a : ℚ) ≤ (b : ℚ) := by exact_mod_cast hab.le
    gcongr
  · rw [cdfY, hm, List.range_succ_eq_map]
    simp
  · rw [cdfY, hm, List.range_succ, List.map_append]
    simp only [List.map_cons, List.map_nil]
    rw [List.getLast?_concat]
    push_cast
    ring_nf

/-- C5 (witness): the CDF y-sequence of the §8 example table starts at 0 and
ends at (5-1)/5. -/
theorem empirical_cdf_witness :
    (cdfY [1/10, 1/2, 3/4, 9/10, 3/10]).head? = some 0
    ∧ (cdfY [1/10, 1/2, 3/4, 9/10, 3/10]).getLast?
        = some (((([(1 : ℚ)/10, 1/2, 3/4, 9/10, 3/10] : List ℚ).length : ℚ) - 1)
            / (([(1 : ℚ)/10, 1/2, 3/4, 9/10, 3/10] : List ℚ).length : ℚ)) :=
  ⟨(empirical_cdf [1/10, 1/2, 3/4, 9/10, 3/10] (by simp)).2.2.2.2.2.1,
   (empirical_cdf [1/10, 1/2, 3/4, 9/10, 3/10] (by simp)).2.2.2.2.2.2⟩

/-- `foldl min` is a lower bound of its seed and of every list element. -/
theorem foldl_min_spec (l : List ℚ) (a : ℚ) :
    l.foldl min a ≤ a ∧ ∀ x ∈ l, l.foldl min a ≤ x := by
  induction l generalizing a with
  | nil => simp
  | cons b t ih =>
    simp only [List.foldl_cons]
    obtain ⟨h1, h2⟩ := ih (min a b)
    refine ⟨le_trans h1 (min_le_left a b), ?_⟩
    intro x hx
    rcases List.mem_cons.mp hx with rfl | hx
    · exact le_trans h1 (min_le_right a x)
    · exact h2 x hx

/-- `foldl max` is an upper bound of its seed and of every list element. -/
theorem foldl_max_spec (l : List ℚ) (a : ℚ) :
    a ≤ l.foldl max a ∧ ∀ x ∈ l, x ≤ l.foldl max a := by
  induction l generalizing a with
  | nil => simp
  | cons b t ih =>
    simp only [List.foldl_cons]
    obtain ⟨h1, h2⟩ := ih (max a b)
    refine ⟨le_trans (le_max_left a b) h1, ?_⟩
    intro x hx
    rcases List.mem_cons.mp hx with rfl | hx
    · exact le_trans (le_max_right a x) h1
    · exact h2 x hx

/-- `Series.min()`: the minimum of a list is a lower bound of it. -/
theorem min?_le_of_mem {xs : List ℚ} {a : ℚ} (h : xs.min? = some a) :
    ∀ b ∈ xs, a ≤ b := by
  cases xs with
  | nil => simp [List.min?] at h
  | cons x t =>
    obtain rfl : t.foldl min x = a := Option.some.inj (by simpa [List.min?] using h)
    intro b hb
    rcases List.mem_cons.mp hb with rfl | hb
    · exact (foldl_min_spec t b).1
    · exact (foldl_min_spec t x).2 b hb

/-- `Series.max()`: the maximum of a list is an upper bound of it. -/
theorem le_max?_of_mem {xs : List ℚ} {a : ℚ} (h : xs.max? = some a) :
    ∀ b ∈ xs, b ≤ a := by
  cases xs with
  | nil => simp [List.max?] at h
  | cons x t =>
    obtain rfl : t.foldl max x = a := Option.some.inj (by simpa [List.max?] using h)
    intro b hb
    rcases List.mem_cons.mp hb with rfl | hb
    · exact (foldl_max_spec t b).1
    · exact (foldl_max_spec t x).2 b hb

/-- A list sum is at least its length times any lower bound of the list. -/
theorem card_mul_le_sum {xs : List ℚ} {lo : ℚ} (h : ∀ x ∈ xs, lo ≤ x) :
    (xs.length : ℚ) * lo ≤ xs.sum := by
  induction xs with
  | nil => simp
  | cons a l ih =>
    simp only [List.sum_cons, List.length_cons]
    have ha := h a (List.mem_cons_self a l)
    have hl := ih (fun x hx => h x (List.mem_cons_of_mem a hx))
    push_cast
    have hexp : ((l.length : ℚ) + 1) * lo = (l.length : ℚ) * lo + lo := by ring
    rw [hexp]
    linarith

/-- A list sum is at most its length times any upper bound of the list. -/
theorem sum_le_card_mul {xs : List ℚ} {hi : ℚ} (h : ∀ x ∈ xs, x ≤ hi) :
    xs.sum ≤ (xs.length : ℚ) * hi := by
  induction xs with
  | nil => simp
  | cons a l ih =>
    simp only [List.sum_cons, List.length_cons]
    have ha := h a (List.mem_cons_self a l)
    have hl := ih (fun x hx => h x (List.mem_cons_of_mem a hx))
    push_cast
    have hexp : ((l.length : ℚ) + 1) * hi = (l.length : ℚ) * hi + hi := by ring
    rw [hexp]
    linarith

/-- C8: for any non-empty merged table, the mean of `avg_speed_kmh` lies
between the column's minimum and maximum, inclusively. -/
theorem avg_speed_between_min_max (records : List TrafficWeatherRecord)
    (h : records ≠ []) :
    ∀ lo hi mu,
      (records.map TrafficWeatherRecord.avg_speed_kmh).min? = some lo →
      (records.map TrafficWeatherRecord.avg_speed_kmh).max? = some hi →
      avgTrafficSpeed records = some mu →
      lo ≤ mu ∧ mu ≤ hi := by
  intro lo hi mu hlo hhi hmu
  have hne : records.map TrafficWeatherRecord.avg_speed_kmh ≠ [] := by
    simpa using h
  have hn : (0 : ℚ) < ((records.map TrafficWeatherRecord.avg_speed_kmh).length : ℚ) := by
    exact_mod_cast List.length_pos.mpr hne
  rw [avgTrafficSpeed, seriesMean_of_ne_nil hne] at hmu
  obtain rfl : mu = _ := (Option.some.inj hmu).symm
  constructor
  · rw [le_div_iff₀ hn]
    have := card_mul_le_sum (min?_le_of_mem hlo)
    linarith [this]
  · rw [div_le_iff₀ hn]
    have := sum_le_card_mul (le_max?_of_mem hhi)
    linarith [this]

/-- C8 (witness): a two-row table with speeds 30 and 50 has mean 40,
between its minimum 30 and maximum 50. -/
theorem avg_speed_between_min_max_witness :
    (30 : ℚ) ≤ 40 ∧ (40 : ℚ) ≤ 50 :=
  avg_speed_between_min_max
    [⟨0, 30, "", "", 0, 0⟩, ⟨0, 50, "", "", 0, 0⟩] (by simp)
    30 50 40 (by decide) (by decide)
    (by norm_num [avgTrafficSpeed, seriesMean])

/-- The sum of the absolute values of a list vanishes exactly when the list
is all zeros. -/
theorem sum_abs_eq_zero_iff (col : List ℚ) :
    (col.map (fun x => |x|)).sum = 0 ↔ col = List.replicate col.length 0 := by
  induction col with
  | nil => simp
  | cons a l ih =>
    simp only [List.map_cons, List.sum_cons, List.length_cons, List.replicate_succ]
    have hnn : (0 : ℚ) ≤ (l.map (fun x => |x|)).sum := by
      refine List.sum_nonneg ?_
      intro x hx
      obtain ⟨y, _, rfl⟩ := List.mem_map.mp hx
      exact abs_nonneg y
    constructor
    · intro hsum
      obtain ⟨h1, h2⟩ := (add_eq_zero_iff_of_nonneg (abs_nonneg a) hnn).mp hsum
      rw [abs_eq_zero.mp h1]
      exact congrArg (List.cons 0) (ih.mp h2)
    · intro hrep
      obtain ⟨ha, hl⟩ := List.cons.inj hrep
      have hs : (l.map (fun x => |x|)).sum = 0 := ih.mpr hl
      rw [ha, hs]
      simp

/-- C7: the factor-strength table pairs each factor with the mean of the
absolute values of its loadings; every strength (defined whenever the factor
has at least one variable) is non-negative, and is 0 exactly when every
loading of that factor is 0. -/
theorem factor_strength_props (m : FactorMatrix)
    (hne : ∀ c ∈ m, c.2 ≠ []) :
    ∀ name col, (name, col) ∈ m →
      ((name, columnStrength col) ∈ factor_strength m
       ∧ columnStrength col ≠ none
       ∧ ∀ v, columnStrength col = some v →
           0 ≤ v ∧ (v = 0 ↔ col = List.replicate col.length 0)) := by
  intro name col hmem
  have hcne : col ≠ [] := hne (name, col) hmem
  have hmapne : col.map (fun x => |x|) ≠ [] := by simpa using hcne
  have hn : (0 : ℚ) < ((col.map (fun x => |x|)).length : ℚ) := by
    exact_mod_cast List.length_pos.mpr hmapne
  have hsnn : (0 : ℚ) ≤ (col.map (fun x => |x|)).sum := by
    refine List.sum_nonneg ?_
    intro x hx
    obtain ⟨y, _, rfl⟩ := List.mem_map.mp hx
    exact abs_nonneg y
  refine ⟨?_, ?_, ?_⟩
  · exact List.mem_map_of_mem (fun c => (c.1, columnStrength c.2)) hmem
  · rw [columnStrength, seriesMean_of_ne_nil hmapne]
    simp
  · intro v hv
    rw [columnStrength, seriesMean_of_ne_nil hmapne] at hv
    obtain rfl : v = _ := (Option.some.inj hv).symm
    refine ⟨div_nonneg hsnn hn.le, ?_⟩
    rw [div_eq_zero_iff]
    constructor
    · rintro (hs | hlen)
      · exact (sum_abs_eq_zero_iff col).mp hs
      · exact absurd hlen (ne_of_gt hn)
    · intro hrep
      exact Or.inl ((sum_abs_eq_zero_iff col).mpr hrep)

/-- C7 (witness): for the one-factor matrix with loadings 1/2 and -1/2 the
strength 1/2 is non-negative and non-zero since not all loadings are 0. -/
theorem factor_strength_props_witness :
    0 ≤ (1/2 : ℚ)
    ∧ ((1/2 : ℚ) = 0
        ↔ [(1 : ℚ)/2, -(1/2)]
            = List.replicate ([(1 : ℚ)/2, -(1/2)] : List ℚ).length 0) :=
  (factor_strength_props [("Factor1", [1/2, -(1/2)])]
      (by intro c hc; simp only [List.mem_cons, List.not_mem_nil, or_false] at hc
          rw [hc]; simp)
      "Factor1" [1/2, -(1/2)] (by simp)).2.2
    (1/2) (by norm_num [columnStrength, seriesMean])

/-- C3: when any expected file is missing (and none is merely unparsable —
that failure mode is the subject of `load_error_modes`), the load fails as a
whole: all three table outputs are `None` simultaneously, the `st.error`
message names the missing file, and `st.stop()` ends the session before any
pane renders, whatever the sidebar selection. -/
theorem load_all_or_nothing (d : Directory) (hnp : noUnparsable d)
    (hm : someMissing d) :
    firstMissing d ≠ none
    ∧ ∀ f, firstMissing d = some f →
        (missingIn d f
         ∧ load_data d
             = Except.ok ⟨none, none, none, some ("File not found: " ++ f)⟩
         ∧ ∀ sel, runSession d sel
             = SessionResult.halted (some ("File not found: " ++ f))) := by
  obtain ⟨m, s, fa⟩ := d
  obtain ⟨h1, h2, h3⟩ := hnp
  cases m <;> cases s <;> cases fa <;>
    simp_all [firstMissing, missingIn, someMissing, load_data, read_csv,
      runSession, noUnparsable]

/-- C3 (witness): a directory missing exactly `simulation_results.csv` yields
no table at all — in particular not the two loadable ones — plus the message
naming that file, and the session halts. -/
theorem load_all_or_nothing_witness :
    missingIn ⟨.present [], .missing, .present []⟩ "simulation_results.csv"
    ∧ load_data ⟨.present [], .missing, .present []⟩
        = Except.ok ⟨none, none, none,
            some ("File not found: " ++ "simulation_results.csv")⟩
    ∧ runSession ⟨.present [], .missing, .present []⟩ "🎲 Monte Carlo Simulation"
        = SessionResult.halted
            (some ("File not found: " ++ "simulation_results.csv")) := by
  obtain ⟨-, h⟩ := load_all_or_nothing ⟨.present [], .missing, .present []⟩
    (by simp [noUnparsable]) (by simp [someMissing])
  obtain ⟨h1, h2, h3⟩ := h "simulation_results.csv" rfl
  exact ⟨h1, h2, h3 _⟩

/-- C4 (counterexample): an unparsable `final_merged_dataset.csv` is a load
failure that is not surfaced as the caught missing-file message: the parse
exception escapes `load_data` uncaught and crashes the session, so not every
load failure produces the single handled error kind. -/
theorem unparsable_escapes_loader :
    load_data ⟨.unparsable, .present [], .present []⟩
      = Except.error (PdError.parserError "final_merged_dataset.csv")
    ∧ runSession ⟨.unparsable, .present [], .present []⟩ "📊 Data Overview"
      = SessionResult.crashed (PdError.parserError "final_merged_dataset.csv") :=
  ⟨rfl, rfl⟩

/-- C4 (amended): a missing file is caught as `FileNotFoundError` and
surfaced as a message naming it, after which the session halts with no pane;
no `FileNotFoundError` ever escapes the loader; but an unparsable file raises
an exception that does escape `load_data` uncaught and crashes the session. -/
theorem load_error_modes (d : Directory) :
    (∀ r, load_data d = Except.ok r → r.df_merged = none →
        (r.df_sim = none ∧ r.df_factors = none
         ∧ (∀ f, firstMissing d = some f →
              r.errorDisplayed = some ("File not found: " ++ f))
         ∧ ∀ sel, runSession d sel = SessionResult.halted r.errorDisplayed))
    ∧ (∀ f, load_data d ≠ Except.error (PdError.fileNotFound f))
    ∧ (∀ e, load_data d = Except.error e →
        (∃ f, e = PdError.parserError f)
        ∧ ∀ sel, runSession d sel = SessionResult.crashed e) := by
  obtain ⟨m, s, fa⟩ := d
  cases m <;> cases s <;> cases fa <;>
    simp_all [firstMissing, load_data, read_csv, runSession]

/-- C4 (witness): with an unparsable merged dataset, the loader does not
produce the handled missing-file outcome for that file; the escaping
exception crashes the session. -/
theorem load_error_modes_witness :
    load_data ⟨.unparsable, .present [], .present []⟩
        ≠ Except.error (PdError.fileNotFound "final_merged_dataset.csv")
    ∧ runSession ⟨.unparsable, .present [], .present []⟩ "📐 Factor Analysis"
        = SessionResult.crashed
            (PdError.parserError "final_merged_dataset.csv") := by
  obtain ⟨-, h2, h3⟩ := load_error_modes ⟨.unparsable, .present [], .present []⟩
  exact ⟨h2 "final_merged_dataset.csv",
    (h3 (PdError.parserError "final_merged_dataset.csv") rfl).2 _⟩

end Dashboard
